import Mathlib

/-!
# Verification of the gotham core: typed request state and the TLS launcher

Shallow embedding of the two source files:

* `src/src/state/mod.rs` — `State`, a heterogeneous store mapping a runtime
  type identity (`TypeId`) to one boxed, type-erased value (`Box<Any + Send>`),
  with operations `put`, `borrow`, `borrow_mut`, `take`.
* `src/gotham/src/tls.rs` — the TLS server launcher: `start`,
  `start_with_num_threads`, `start_on_executor`, `init_server`,
  `bind_server_rustls`.

The embedding of the store is parametric in a type `Code` of type identities
(playing the role of Rust's `TypeId`) together with an interpretation
`interp : Code → Type` giving for every identity the Rust type it identifies.
A `Box<Any + Send>` is a dependent pair of a dynamic type identity and a value
of the identified type; the checked downcast compares identities.
-/

namespace Gotham

section Store

variable {Code : Type} [DecidableEq Code] {interp : Code → Type}

/-- A `Box<Any + Send>`: a type-erased value carrying its dynamic `TypeId`
(`tid`) and the value itself. -/
structure AnyBox (Code : Type) (interp : Code → Type) where
  tid : Code
  val : interp tid

/-- Rust `Any::downcast_ref::<T>` (and `downcast_mut`, `downcast`): succeeds exactly
when the box's dynamic type identity equals the requested one. -/
def AnyBox.downcast (b : AnyBox Code interp) (c : Code) : Option (interp c) :=
  if h : b.tid = c then some (h ▸ b.val) else none

/-- Struct `State` from `src/src/state/mod.rs`: `data: HashMap<TypeId, Box<Any + Send>>`,
modelled by its lookup function. -/
structure State (Code : Type) (interp : Code → Type) where
  data : Code → Option (AnyBox Code interp)

/-- Constructor `State::new`: the empty store. -/
def State.new : State Code interp :=
  ⟨fun _ => none⟩

/-- Method `State::put::<T>`: `self.data.insert(TypeId::of::<T>(), Box::new(t))`.
The code `c` stands for `TypeId::of::<T>`. -/
def State.put (st : State Code interp) (c : Code) (v : interp c) :
    State Code interp :=
  ⟨fun c2 => if c2 = c then some ⟨c, v⟩ else st.data c2⟩

/-- Method `State::borrow::<T>`: `self.data.get(&type_id).and_then(|b| b.downcast_ref())`. -/
def State.borrow (st : State Code interp) (c : Code) : Option (interp c) :=
  (st.data c).bind (fun b => b.downcast c)

/-- Method `State::borrow_mut::<T>`: `self.data.get_mut(&type_id).and_then(|b| b.downcast_mut())`.
Its observable result (which value, if any, becomes accessible) coincides with
`borrow`; the returned reference aliases the slot for the lexical scope of the
call. -/
def State.borrow_mut (st : State Code interp) (c : Code) : Option (interp c) :=
  (st.data c).bind (fun b => b.downcast c)

/-- Method `State::take::<T>`: `self.data.remove(&type_id).and_then(|b| b.downcast().ok()).map(|b| *b)`.
Returns the removed-and-downcast value together with the store after removal
(the entry at `c`, if any, is removed whether or not the downcast succeeds). -/
def State.take (st : State Code interp) (c : Code) :
    Option (interp c) × State Code interp :=
  ((st.data c).bind (fun b => b.downcast c),
    ⟨fun c2 => if c2 = c then none else st.data c2⟩)

/-- One client operation on the store, for reasoning about reachable states. -/
inductive Op (Code : Type) (interp : Code → Type) where
  | put (c : Code) (v : interp c)
  | borrow (c : Code)
  | borrow_mut (c : Code)
  | take (c : Code)

/-- The state transformation performed by one operation (`borrow` and
`borrow_mut` do not change which values are stored). -/
def Op.step (st : State Code interp) : Op Code interp → State Code interp
  | .put c v => st.put c v
  | .borrow _ => st
  | .borrow_mut _ => st
  | .take c => (st.take c).2

/-- Run a sequence of operations from a starting state. -/
def State.run (st : State Code interp) (ops : List (Op Code interp)) :
    State Code interp :=
  ops.foldl Op.step st

/-- The value that a sequence of operations leaves in the slot for `c`,
starting from a slot holding `o`: a `put` at `c` overwrites it, a `take` at `c`
clears it, everything else leaves it alone. -/
def slotStep (c : Code) (o : Option (interp c)) : Op Code interp → Option (interp c)
  | .put c2 v => if h : c2 = c then some (h ▸ v) else o
  | .take c2 => if c2 = c then none else o
  | _ => o

/-- The value stored for `c` after running `ops` from the empty store. -/
def slot (c : Code) (ops : List (Op Code interp)) : Option (interp c) :=
  ops.foldl (slotStep c) none

/-- Returns `true` on the operations that `put` a value at code `c`. -/
def Op.isPutAt (c : Code) : Op Code interp → Bool
  | .put c2 _ => decide (c2 = c)
  | _ => false

end Store

section Server

/-- A log record emitted through the `log` crate: error level or info level,
a target, and the fully formatted message. -/
structure LogMsg where
  isError : Bool
  target : String
  message : String
deriving DecidableEq

/-- A bound TCP listener, as observed by `init_server`: its local address
(the code calls `listener.local_addr().unwrap()` and formats it). -/
structure Listener where
  local_addr : String
deriving DecidableEq

/-- A raw accepted TCP stream, as handed to the wrap closure in
`bind_server_rustls`: it carries the peer's address (obtainable from the
socket, whether or not the code consults it) and an identity. -/
structure RawSocket where
  peerAddr : String
  id : Nat
deriving DecidableEq

/-- A secured (TLS) stream produced by a successful handshake. -/
structure SecuredStream where
  id : Nat
deriving DecidableEq

set_option linter.unusedVariables false in
/-- The wrap closure passed by `bind_server_rustls` to `bind_server`:
`tls.accept(socket)` either succeeds with a secured stream or fails with a
rustls error `e` (modelled by its debug representation); on failure the code
logs `error!(target: "gotham::tls", "TLS handshake error: ...e...")` and maps
the error to `()`. The result is the caller-visible outcome paired with the
log lines emitted. -/
def wrapTls (hs : Except String SecuredStream) (socket : RawSocket) :
    Except Unit SecuredStream × List LogMsg :=
  match hs with
  | .ok s => (.ok s, [])
  | .error e =>
      (.error (),
        [⟨true, "gotham::tls", "TLS handshake error: " ++ e⟩])

/-- Modelled from the spec: `bind_server` (defined in the crate root, outside
`src/`) drives the accept loop, feeding each accepted stream through the wrap
function; a stream whose wrap succeeds is dispatched to a spawned connection
task, a stream whose wrap fails is dropped and the loop continues with the
next connection. We run it on a finite prefix of accepted connections, each
given with its handshake outcome, and collect the dispatched secured streams
and all emitted log lines. -/
def bind_server (conns : List (RawSocket × Except String SecuredStream)) :
    List SecuredStream × List LogMsg :=
  match conns with
  | [] => ([], [])
  | (socket, hs) :: rest =>
      let w := wrapTls hs socket
      let r := bind_server rest
      match w.1 with
      | .ok s => (s :: r.1, w.2 ++ r.2)
      | .error _ => (r.1, w.2 ++ r.2)

/-- Function `bind_server_rustls listener new_handler tls_config` builds the acceptor
from the config and calls `bind_server` with the wrap closure `wrapTls`; its
observable behaviour on a finite prefix of accepted connections. -/
def bind_server_rustls (conns : List (RawSocket × Except String SecuredStream)) :
    List SecuredStream × List LogMsg :=
  bind_server conns

/-- The caller-visible trace of the server-initialisation future: the log
lines it emits and whether the accept-loop service was ever entered. -/
structure InitTrace where
  logs : List LogMsg
  serviceStarted : Bool
deriving DecidableEq

/-- The info line logged by `init_server` after a successful bind:
`info!(target: "gotham::start", " Gotham listening on http://...addr...")`. -/
def listeningLog (addr : String) : LogMsg :=
  ⟨false, "gotham::start", " Gotham listening on http://" ++ addr⟩

/-- Function `init_server addr new_handler tls_config` from `src/gotham/src/tls.rs`:
`tcp_listener(addr).map_err(|_| ()).and_then(|listener| { info!(...); bind_server_rustls(...).map_err(|_| ()) }).then(|_| future::ready(()))`.
`bindResult` is the outcome of `tcp_listener(addr)` (address resolution and
bind); `conns` are the connections the accept loop would see. The future's
output is `()` in every case — the trailing `then` ignores the result. -/
def init_server (bindResult : Except String Listener)
    (conns : List (RawSocket × Except String SecuredStream)) :
    InitTrace × Unit :=
  match bindResult with
  | .error _ => (⟨[], false⟩, ())
  | .ok l =>
      (⟨listeningLog l.local_addr :: (bind_server_rustls conns).2, true⟩, ())

/-- Function `new_runtime(threads)`: a tokio runtime with the given worker count. -/
structure Runtime where
  threads : Nat
deriving DecidableEq

def new_runtime (threads : Nat) : Runtime :=
  ⟨threads⟩

/-- The observable behaviour of a launcher call: the worker count of the
runtime it creates, the trace-and-result of the spawned `init_server` future,
and whether the call blocks until the runtime is idle. -/
structure LaunchBehavior where
  workerThreads : Nat
  spawned : InitTrace × Unit
  blocksUntilIdle : Bool
deriving DecidableEq

/-- Function `start_on_executor(addr, new_handler, tls_config, executor)`: spawns
`init_server` on the given executor and returns immediately. -/
def start_on_executor (bindResult : Except String Listener)
    (conns : List (RawSocket × Except String SecuredStream)) :
    InitTrace × Unit :=
  init_server bindResult conns

/-- Function `start_with_num_threads(addr, new_handler, tls_config, threads)`: creates
a runtime with `threads` workers, spawns the server on its executor, and
blocks via `shutdown_on_idle()`. -/
def start_with_num_threads (bindResult : Except String Listener)
    (conns : List (RawSocket × Except String SecuredStream))
    (threads : Nat) : LaunchBehavior :=
  let runtime := new_runtime threads
  { workerThreads := runtime.threads
    spawned := start_on_executor bindResult conns
    blocksUntilIdle := true }

/-- Function `start(addr, new_handler, tls_config)`: delegates to
`start_with_num_threads` with `num_cpus::get()`; the host's CPU count is an
environment input, passed here as `numCpus`. -/
def start (bindResult : Except String Listener)
    (conns : List (RawSocket × Except String SecuredStream))
    (numCpus : Nat) : LaunchBehavior :=
  start_with_num_threads bindResult conns numCpus

end Server

section StoreLemmas

variable {Code : Type} [DecidableEq Code] {interp : Code → Type}

theorem AnyBox.downcast_self (c : Code) (v : interp c) :
    (AnyBox.mk c v).downcast c = some v := by
  simp [AnyBox.downcast]

theorem State.put_data_self (st : State Code interp) (c : Code) (v : interp c) :
    (st.put c v).data c = some ⟨c, v⟩ := by
  simp [State.put]

theorem State.put_data_other (st : State Code interp) (c c2 : Code)
    (v : interp c) (h : c2 ≠ c) : (st.put c v).data c2 = st.data c2 := by
  simp [State.put, h]

theorem State.borrow_put_self (st : State Code interp) (c : Code) (v : interp c) :
    (st.put c v).borrow c = some v := by
  simp [State.borrow, State.put_data_self, AnyBox.downcast_self]

theorem State.take_snd_data_self (st : State Code interp) (c : Code) :
    ((st.take c).2).data c = none := by
  simp [State.take]

theorem State.take_snd_data_other (st : State Code interp) (c c2 : Code)
    (h : c2 ≠ c) : ((st.take c).2).data c2 = st.data c2 := by
  simp [State.take, h]

theorem State.borrow_of_data_none (st : State Code interp) (c : Code)
    (h : st.data c = none) : st.borrow c = none := by
  simp [State.borrow, h]

theorem State.borrow_mut_of_data_none (st : State Code interp) (c : Code)
    (h : st.data c = none) : st.borrow_mut c = none := by
  simp [State.borrow_mut, h]

theorem State.take_fst_of_data_none (st : State Code interp) (c : Code)
    (h : st.data c = none) : (st.take c).1 = none := by
  simp [State.take, h]

/-- The slot for `c` in the state reached by running `ops` from a state whose
slot for `c` holds exactly the (well-tagged) value `o` is the fold of
`slotStep` over `ops`, still well-tagged. -/
theorem State.run_data (ops : List (Op Code interp)) (st : State Code interp)
    (c : Code) (o : Option (interp c))
    (h : st.data c = o.map (fun v => AnyBox.mk c v)) :
    (st.run ops).data c =
      (ops.foldl (slotStep c) o).map (fun v => AnyBox.mk c v) := by
  induction ops generalizing st o with
  | nil => simpa [State.run] using h
  | cons op rest ih =>
    have hrun : st.run (op :: rest) = (Op.step st op).run rest := rfl
    rw [hrun, List.foldl_cons]
    refine ih _ _ ?_
    cases op with
    | put c2 v =>
      rcases eq_or_ne c2 c with hc | hc
      · subst hc
        simp [Op.step, State.put, slotStep]
      · simpa [Op.step, State.put, Ne.symm hc, slotStep, hc] using h
    | borrow c2 => simpa [Op.step, slotStep] using h
    | borrow_mut c2 => simpa [Op.step, slotStep] using h
    | take c2 =>
      rcases eq_or_ne c2 c with hc | hc
      · subst hc
        simp [Op.step, State.take, slotStep]
      · simpa [Op.step, State.take, Ne.symm hc, slotStep, hc] using h

/-- The slot for `c` in any state reachable from `State::new` is exactly
`slot c ops`, tagged with `c` itself. -/
theorem State.run_new_data (ops : List (Op Code interp)) (c : Code) :
    ((State.new : State Code interp).run ops).data c =
      (slot c ops).map (fun v => AnyBox.mk c v) :=
  State.run_data ops State.new c none rfl

/-- If no operation in `ops` is a `put` at `c` and the slot for `c` is empty,
running `ops` keeps it empty. -/
theorem State.run_data_none (ops : List (Op Code interp))
    (st : State Code interp) (c : Code) (h : st.data c = none)
    (hp : ∀ op ∈ ops, Op.isPutAt c op = false) :
    (st.run ops).data c = none := by
  induction ops generalizing st with
  | nil => simpa [State.run] using h
  | cons op rest ih =>
    have hrun : st.run (op :: rest) = (Op.step st op).run rest := rfl
    rw [hrun]
    refine ih _ ?_ (fun o ho => hp o (List.mem_cons_of_mem _ ho))
    cases op with
    | put c2 v =>
      have hc : c2 ≠ c := by
        have := hp _ (List.mem_cons_self _ _)
        simpa [Op.isPutAt] using this
      simpa [Op.step, State.put, Ne.symm hc] using h
    | borrow c2 => simpa [Op.step] using h
    | borrow_mut c2 => simpa [Op.step] using h
    | take c2 =>
      rcases eq_or_ne c c2 with hc | hc
      · simp [Op.step, State.take, hc]
      · simpa [Op.step, State.take, hc] using h

end StoreLemmas

section StoreClaims

variable {Code : Type} [DecidableEq Code] {interp : Code → Type}

/-- C1. Single-slot-per-type: after any sequence of operations ending in
`put(a)` followed by `put(b)` (both at type identity `c`), `borrow` at `c`
returns `some b` and never `a`; the slot for `c` holds exactly the single
box of `b` (the map keeps at most one live value per type identity). -/
theorem claim_C1_single_slot_per_type (ops : List (Op Code interp)) (c : Code)
    (a b : interp c) (hab : a ≠ b) :
    ((State.new : State Code interp).run (ops ++ [.put c a, .put c b])).borrow c
        = some b ∧
    ((State.new : State Code interp).run (ops ++ [.put c a, .put c b])).borrow c
        ≠ some a ∧
    ((State.new : State Code interp).run (ops ++ [.put c a, .put c b])).data c
        = some ⟨c, b⟩ := by
  have hst : (State.new : State Code interp).run (ops ++ [.put c a, .put c b])
      = ((State.new.run ops).put c a).put c b := by
    simp [State.run, Op.step]
  rw [hst]
  refine ⟨State.borrow_put_self _ c b, ?_, State.put_data_self _ c b⟩
  rw [State.borrow_put_self _ c b]
  intro hcontra
  exact hab (Option.some_injective _ hcontra.symm)

/-- C2. Take-then-empty with ownership transfer: if a value is stored at type
identity `c` after running `ops` from the empty store (the stored value being
`v`, the value of the most recent `put` at `c`, as computed by `slot`), then
`take` at `c` returns `some v` and erases the entry; every immediately
subsequent `borrow`, `borrow_mut`, `take` at `c` returns `none`, and they
remain `none` after any further operation sequence `ops2` containing no `put`
at `c`. -/
theorem claim_C2_take_then_empty (ops : List (Op Code interp)) (c : Code)
    (v : interp c) (hstored : slot c ops = some v)
    (ops2 : List (Op Code interp))
    (hnoput : ∀ op ∈ ops2, Op.isPutAt c op = false) :
    (((State.new : State Code interp).run ops).take c).1 = some v ∧
    ((((State.new : State Code interp).run ops).take c).2).borrow c = none ∧
    ((((State.new : State Code interp).run ops).take c).2).borrow_mut c = none ∧
    (((((State.new : State Code interp).run ops).take c).2).take c).1 = none ∧
    (((((State.new : State Code interp).run ops).take c).2).run ops2).borrow c
        = none ∧
    (((((State.new : State Code interp).run ops).take c).2).run ops2).borrow_mut c
        = none ∧
    ((((((State.new : State Code interp).run ops).take c).2).run ops2).take c).1
        = none := by
  have hd : ((State.new : State Code interp).run ops).data c = some ⟨c, v⟩ := by
    rw [State.run_new_data, hstored]
    rfl
  have h1 : (((State.new : State Code interp).run ops).take c).1 = some v := by
    simp [State.take, hd, AnyBox.downcast_self]
  have h2 : ((((State.new : State Code interp).run ops).take c).2).data c = none :=
    State.take_snd_data_self _ c
  have h3 : (((((State.new : State Code interp).run ops).take c).2).run ops2).data c
      = none :=
    State.run_data_none ops2 _ c h2 hnoput
  exact ⟨h1, State.borrow_of_data_none _ c h2,
    State.borrow_mut_of_data_none _ c h2, State.take_fst_of_data_none _ c h2,
    State.borrow_of_data_none _ c h3, State.borrow_mut_of_data_none _ c h3,
    State.take_fst_of_data_none _ c h3⟩

/-- C5. Isolation across types: for distinct type identities `c1 ≠ c2`,
`put` at `c1` leaves the results of `borrow`, `borrow_mut` and `take` at `c2`
exactly as they were before the `put`. -/
theorem claim_C5_isolation_across_types (st : State Code interp)
    (c1 c2 : Code) (v : interp c1) (h : c1 ≠ c2) :
    (st.put c1 v).borrow c2 = st.borrow c2 ∧
    (st.put c1 v).borrow_mut c2 = st.borrow_mut c2 ∧
    ((st.put c1 v).take c2).1 = (st.take c2).1 := by
  have hd : (st.put c1 v).data c2 = st.data c2 :=
    State.put_data_other st c1 c2 v (Ne.symm h)
  exact ⟨by simp [State.borrow, hd], by simp [State.borrow_mut, hd],
    by simp [State.take, hd]⟩

/-- C6. Absence is never an error and `put` always succeeds: `borrow`,
`borrow_mut` and `take` are total functions returning an optional result that
is empty when no value is stored at the type identity; and on every store
state — including one already holding a value of the same type — `put`
succeeds, the slot afterwards holding exactly the new value (any prior value
of the same type is replaced and dropped). -/
theorem claim_C6_absence_not_error (st : State Code interp) (c : Code)
    (h : st.data c = none) :
    st.borrow c = none ∧ st.borrow_mut c = none ∧ (st.take c).1 = none ∧
    ∀ (st2 : State Code interp) (v : interp c),
      (st2.put c v).borrow c = some v ∧ (st2.put c v).data c = some ⟨c, v⟩ := by
  exact ⟨State.borrow_of_data_none st c h, State.borrow_mut_of_data_none st c h,
    State.take_fst_of_data_none st c h,
    fun st2 v => ⟨State.borrow_put_self st2 c v, State.put_data_self st2 c v⟩⟩

/-- C9. Downcast-consistency invariant: in every state reachable from
`State::new` by a sequence of `put`/`borrow`/`borrow_mut`/`take` operations,
every box stored under type identity `c` has dynamic type identity exactly
`c`; consequently whenever the key is present the checked downcast inside
`borrow`, `borrow_mut` and `take` succeeds, and `borrow` returns `some` if
and only if the key is present in the map. -/
theorem claim_C9_downcast_consistency (ops : List (Op Code interp)) (c : Code) :
    (∀ b, ((State.new : State Code interp).run ops).data c = some b →
      b.tid = c) ∧
    ((((State.new : State Code interp).run ops).data c).isSome = true →
      ((((State.new : State Code interp).run ops).borrow c).isSome = true ∧
       (((State.new : State Code interp).run ops).borrow_mut c).isSome = true ∧
       ((((State.new : State Code interp).run ops).take c).1).isSome = true)) ∧
    (((State.new : State Code interp).run ops).borrow c).isSome =
      (((State.new : State Code interp).run ops).data c).isSome := by
  have hd := @State.run_new_data Code _ interp ops c
  cases hs : slot c ops with
  | none =>
      rw [hs] at hd
      refine ⟨fun b hb => ?_, fun hsome => ?_, ?_⟩
      · rw [hd] at hb
        exact absurd hb (by simp)
      · rw [hd] at hsome
        exact absurd hsome (by simp)
      · simp [State.borrow, hd]
  | some v =>
      rw [hs] at hd
      have hd2 : ((State.new : State Code interp).run ops).data c
          = some ⟨c, v⟩ := hd
      refine ⟨fun b hb => ?_, fun _ => ?_, ?_⟩
      · rw [hd2] at hb
        cases hb
        rfl
      · exact ⟨by simp [State.borrow, hd2, AnyBox.downcast_self],
          by simp [State.borrow_mut, hd2, AnyBox.downcast_self],
          by simp [State.take, hd2, AnyBox.downcast_self]⟩
      · simp [State.borrow, hd2, AnyBox.downcast_self]

/-- C10. Frame and atomicity of `take`: `take` at `c` leaves the slot of every
other type identity `c2 ≠ c` unchanged (for every store state); and in any
state reachable from `State::new`, when `take` at `c` returns `none` the
entire store is unchanged, slot by slot. -/
theorem claim_C10_take_frame (st : State Code interp) (c c2 : Code)
    (h : c2 ≠ c) (ops : List (Op Code interp)) :
    ((st.take c).2).data c2 = st.data c2 ∧
    ((((State.new : State Code interp).run ops).take c).1 = none →
      ∀ c3, ((((State.new : State Code interp).run ops).take c).2).data c3 =
        ((State.new : State Code interp).run ops).data c3) := by
  refine ⟨State.take_snd_data_other st c c2 h, fun hnone c3 => ?_⟩
  have hd := @State.run_new_data Code _ interp ops c
  have hdnone : ((State.new : State Code interp).run ops).data c = none := by
    cases hs : slot c ops with
    | none => rw [hs] at hd; exact hd
    | some v =>
        rw [hs] at hd
        have : (((State.new : State Code interp).run ops).take c).1 = some v := by
          simp [State.take, hd, AnyBox.downcast_self]
        rw [hnone] at this
        exact absurd this (by simp)
  rcases eq_or_ne c3 c with hc | hc
  · subst hc
    rw [State.take_snd_data_self _ c3, hdnone]
  · exact State.take_snd_data_other _ c c3 hc

end StoreClaims

section ServerClaims

/-- Claim C3 (counterexample). A concrete failing bind is not reported to the
launcher's caller: the server-initialisation future resolves to the very same
caller-visible value `()` as a successful run — the failure is swallowed, both
at the `init_server` future and through `start_with_num_threads`. -/
theorem claim_C3_counterexample :
    init_server (.error "getaddrinfo failed") [] = (⟨[], false⟩, ()) ∧
    (init_server (.error "getaddrinfo failed") []).2 =
      (init_server (.ok ⟨"127.0.0.1:8080"⟩) []).2 ∧
    (start_with_num_threads (.error "getaddrinfo failed") [] 4).spawned.2 =
      (start_with_num_threads (.ok ⟨"127.0.0.1:8080"⟩) [] 4).spawned.2 :=
  ⟨rfl, rfl, rfl⟩

/-- Claim C3 (amended). For every address whose resolution or bind fails, no
service starts and no log line is emitted, but the failure is swallowed: the
server-initialisation future resolves to `()`, indistinguishable from the
result of a successful run, so nothing is reported to the launcher's
caller. -/
theorem claim_C3_startup_error_swallowed (e : String)
    (conns : List (RawSocket × Except String SecuredStream)) :
    init_server (.error e) conns = (⟨[], false⟩, ()) ∧
    ∀ (l : Listener) (conns2 : List (RawSocket × Except String SecuredStream)),
      (init_server (.error e) conns).2 = (init_server (.ok l) conns2).2 :=
  ⟨rfl, fun _ _ => rfl⟩

/-- Claim C4 (counterexample). The handshake-failure log line does not
identify the peer address: two failed handshakes from distinct peer addresses
produce identical log output, and the single emitted line consists of the
error's representation only. -/
theorem claim_C4_counterexample :
    (wrapTls (.error "AlertReceived(HandshakeFailure)") ⟨"10.0.0.1", 0⟩).2 =
      (wrapTls (.error "AlertReceived(HandshakeFailure)") ⟨"10.0.0.2", 1⟩).2 ∧
    "10.0.0.1" ≠ "10.0.0.2" ∧
    (wrapTls (.error "AlertReceived(HandshakeFailure)") ⟨"10.0.0.1", 0⟩).2 =
      [⟨true, "gotham::tls",
        "TLS handshake error: AlertReceived(HandshakeFailure)"⟩] :=
  ⟨rfl, by decide, rfl⟩

/-- Claim C4 (amended). For every raw stream on which the handshake fails,
the wrap operation yields a distinguishable handshake-failure outcome
(`Except.error ()`, not a secured stream), emits exactly one error-level log
line on target `gotham::tls` identifying the failure class (the error's debug
representation — but not the peer address), discards the raw stream, and the
failure is never fatal to the accept loop: the remaining connections are
processed exactly as they would have been without the failed one. -/
theorem claim_C4_handshake_failure (e : String) (socket : RawSocket)
    (rest : List (RawSocket × Except String SecuredStream)) :
    (wrapTls (.error e) socket).1 = .error () ∧
    (wrapTls (.error e) socket).2 =
      [⟨true, "gotham::tls", "TLS handshake error: " ++ e⟩] ∧
    (bind_server_rustls ((socket, .error e) :: rest)).1 =
      (bind_server_rustls rest).1 ∧
    (bind_server_rustls ((socket, .error e) :: rest)).2 =
      ⟨true, "gotham::tls", "TLS handshake error: " ++ e⟩ ::
        (bind_server_rustls rest).2 :=
  ⟨rfl, rfl, rfl, rfl⟩

/-- Claim C7. On a successful bind the startup emits exactly one log line,
and it is the informational line
`" Gotham listening on http://<address>"` on target `gotham::start` — the
scheme printed is `http`, although the transport actually served by this
launcher is TLS. Evaluated at the failing input: a successful TLS bind at
`127.0.0.1:443` with no incoming connections. -/
theorem claim_C7_bind_log_line :
    (init_server (.ok ⟨"127.0.0.1:443"⟩) []).1 =
      ⟨[⟨false, "gotham::start",
          " Gotham listening on http://127.0.0.1:443"⟩], true⟩ ∧
    (init_server (.ok ⟨"127.0.0.1:443"⟩) []).1.logs =
      [listeningLog "127.0.0.1:443"] :=
  ⟨rfl, rfl⟩

/-- Claim C8. Default worker count: for every bind outcome, connection
workload and CPU count, `start` behaves identically to
`start_with_num_threads` called with the host's CPU count
(`num_cpus::get()`, here the parameter `numCpus`). -/
theorem claim_C8_default_worker_count (bindResult : Except String Listener)
    (conns : List (RawSocket × Except String SecuredStream)) (numCpus : Nat) :
    start bindResult conns numCpus =
      start_with_num_threads bindResult conns numCpus :=
  rfl

end ServerClaims

section Witnesses

/-- Witness for C1: concrete instance with `Code := Nat`,
`interp := fun _ => Nat`, after `put 0 1; put 0 2`. -/
theorem claim_C1_witness :
    (1 : Nat) ≠ 2 ∧
    (((State.new : State Nat fun _ => Nat).run
        ([] ++ [Op.put 0 1, Op.put 0 2])).borrow 0 = some 2 ∧
     ((State.new : State Nat fun _ => Nat).run
        ([] ++ [Op.put 0 1, Op.put 0 2])).borrow 0 ≠ some 1 ∧
     ((State.new : State Nat fun _ => Nat).run
        ([] ++ [Op.put 0 1, Op.put 0 2])).data 0 = some ⟨0, 2⟩) :=
  ⟨by decide, claim_C1_single_slot_per_type [] 0 1 2 (by decide)⟩

/-- Witness for C2: concrete instance after `put 0 5`, taking at `0`, then
running the put-free continuation `[take 0]`. -/
theorem claim_C2_witness :
    slot 0 ([Op.put 0 5] : List (Op Nat fun _ => Nat)) = some 5 ∧
    (∀ op ∈ ([Op.take 0] : List (Op Nat fun _ => Nat)),
      Op.isPutAt 0 op = false) ∧
    ((((State.new : State Nat fun _ => Nat).run [Op.put 0 5]).take 0).1
        = some 5 ∧
     (((((State.new : State Nat fun _ => Nat).run [Op.put 0 5]).take 0).2)
        |>.borrow 0) = none ∧
     (((((State.new : State Nat fun _ => Nat).run [Op.put 0 5]).take 0).2)
        |>.borrow_mut 0) = none ∧
     ((((((State.new : State Nat fun _ => Nat).run [Op.put 0 5]).take 0).2)
        |>.take 0).1) = none ∧
     ((((((State.new : State Nat fun _ => Nat).run [Op.put 0 5]).take 0).2)
        |>.run [Op.take 0]).borrow 0) = none ∧
     ((((((State.new : State Nat fun _ => Nat).run [Op.put 0 5]).take 0).2)
        |>.run [Op.take 0]).borrow_mut 0) = none ∧
     (((((((State.new : State Nat fun _ => Nat).run [Op.put 0 5]).take 0).2)
        |>.run [Op.take 0]).take 0).1) = none) :=
  ⟨by decide, by decide,
    claim_C2_take_then_empty [Op.put 0 5] 0 5 (by decide) [Op.take 0] (by decide)⟩

/-- Witness for C5: concrete instance with a value stored at identity `1`,
putting at the distinct identity `0`. -/
theorem claim_C5_witness :
    (0 : Nat) ≠ 1 ∧
    ((((State.new : State Nat fun _ => Nat).put 1 42).put 0 9).borrow 1 =
        ((State.new : State Nat fun _ => Nat).put 1 42).borrow 1 ∧
     (((State.new : State Nat fun _ => Nat).put 1 42).put 0 9).borrow_mut 1 =
        ((State.new : State Nat fun _ => Nat).put 1 42).borrow_mut 1 ∧
     ((((State.new : State Nat fun _ => Nat).put 1 42).put 0 9).take 1).1 =
        (((State.new : State Nat fun _ => Nat).put 1 42).take 1).1) :=
  ⟨by decide,
    claim_C5_isolation_across_types ((State.new).put 1 42) 0 1 9 (by decide)⟩

/-- Witness for C6: the absence clauses at the empty store and identity `0`,
and the `put` clauses at a store already holding the prior value `99` at `0`,
replaced by the new value `7`. -/
theorem claim_C6_witness :
    (State.new : State Nat fun _ => Nat).data 0 = none ∧
    (State.new : State Nat fun _ => Nat).borrow 0 = none ∧
    (State.new : State Nat fun _ => Nat).borrow_mut 0 = none ∧
    ((State.new : State Nat fun _ => Nat).take 0).1 = none ∧
    (((State.new : State Nat fun _ => Nat).put 0 99).put 0 7).borrow 0
        = some 7 ∧
    (((State.new : State Nat fun _ => Nat).put 0 99).put 0 7).data 0
        = some ⟨0, 7⟩ := by
  have h := claim_C6_absence_not_error (State.new : State Nat fun _ => Nat) 0 rfl
  exact ⟨rfl, h.1, h.2.1, h.2.2.1,
    (h.2.2.2 ((State.new).put 0 99) 7).1, (h.2.2.2 ((State.new).put 0 99) 7).2⟩

/-- Witness for C9: concrete instance after `put 0 3`, with the tag invariant
instantiated at the stored box and the downcast clauses discharged. -/
theorem claim_C9_witness :
    (⟨0, 3⟩ : AnyBox Nat fun _ => Nat).tid = 0 ∧
    (((State.new : State Nat fun _ => Nat).run [Op.put 0 3]).borrow 0).isSome
        = true ∧
    ((((State.new : State Nat fun _ => Nat).run [Op.put 0 3]).take 0).1).isSome
        = true ∧
    (((State.new : State Nat fun _ => Nat).run [Op.put 0 3]).borrow 0).isSome =
      (((State.new : State Nat fun _ => Nat).run [Op.put 0 3]).data 0).isSome := by
  have h := claim_C9_downcast_consistency
    ([Op.put 0 3] : List (Op Nat fun _ => Nat)) 0
  exact ⟨h.1 ⟨0, 3⟩ rfl, (h.2.1 (by decide)).1, (h.2.1 (by decide)).2.2, h.2.2⟩

/-- Witness for C10: the frame clause at a store holding a value at `0`,
observed at the distinct identity `1`; and the atomicity clause at the
reachable store `run [borrow 0]` where `take 0` returns `none`, observed
slot-wise at identity `0`. -/
theorem claim_C10_witness :
    (1 : Nat) ≠ 0 ∧
    ((((State.new : State Nat fun _ => Nat).put 0 7).take 0).2).data 1 =
      ((State.new : State Nat fun _ => Nat).put 0 7).data 1 ∧
    ((((State.new : State Nat fun _ => Nat).run [Op.borrow 0]).take 0).2).data 0
      = ((State.new : State Nat fun _ => Nat).run [Op.borrow 0]).data 0 := by
  have h := claim_C10_take_frame
    ((State.new : State Nat fun _ => Nat).put 0 7) 0 1 (by decide) [Op.borrow 0]
  exact ⟨by decide, h.1, h.2 rfl 0⟩

end Witnesses

end Gotham
